import Mathlib

/-!
Verification of the document text extractor `extract_prd.py`.

The script reads a fixed `.docx` file, joins its paragraphs' text with a
single newline separator and writes the result to a fixed output text file,
printing a one-line console message.  Python strings are embedded as
`List Char`; the external docx decoder and the file system are modelled by
an explicit environment record, and a whole run of the script is the pure
function `run`.
-/

/-- A Python string, embedded as its sequence of characters. -/
abbrev PyStr := List Char

/-- A paragraph of the input document: the `para.text` attribute the loop
in `read_docx` reads. -/
structure Paragraph where
  text : PyStr
deriving DecidableEq

/-- The decoded document: `docx.Document(file_path)` exposes an ordered
sequence `doc.paragraphs`. -/
structure Document where
  paragraphs : List Paragraph
deriving DecidableEq

/-- Errors the script can raise: a decode failure inside
`docx.Document(...)` or a failure of `f.write(text)`. -/
inductive PyError where
  | decodeError
  | writeError
deriving DecidableEq

/-- Embedding of Python `sep.join(xs)`: the elements of `xs` concatenated
with `sep` between consecutive elements, nothing prepended or appended. -/
def pyJoin (sep : PyStr) : List PyStr → PyStr
  | [] => []
  | [x] => x
  | x :: y :: xs => x ++ sep ++ pyJoin sep (y :: xs)

/-- Body of `read_docx` after the decoder succeeded: the loop collects
`para.text` for each paragraph into `full_text`, and the function returns
`'\n'.join(full_text)`. -/
def extractText (doc : Document) : PyStr :=
  pyJoin ['\n'] (doc.paragraphs.map Paragraph.text)

/-- Embedding of `read_docx`.  The call `docx.Document(file_path)` is an
external decoder, modelled by its outcome `docResult`; a raised
`DecodeError` is not caught inside `read_docx` and propagates, otherwise
the joined paragraph text is returned. -/
def read_docx (docResult : Except PyError Document) : Except PyError PyStr :=
  match docResult with
  | .error e => .error e
  | .ok doc => .ok (extractText doc)

/-- The hard-coded input path `'JB_Platform_PRD_v3.docx'`. -/
def file_path : PyStr := "JB_Platform_PRD_v3.docx".data

/-- The hard-coded output path `'JB_Platform_PRD_v3.txt'`. -/
def output_path : PyStr := "JB_Platform_PRD_v3.txt".data

/-- The success message `f"Successfully extracted text to JB_Platform_PRD_v3.txt"`. -/
def successMsg : PyStr := "Successfully extracted text to JB_Platform_PRD_v3.txt".data

/-- The failure message `f"File {file_path} not found"`. -/
def notFoundMsg : PyStr := "File ".data ++ file_path ++ " not found".data

/-- The environment of one run: everything external the script touches.
`inputExists` is the answer of `os.path.exists(file_path)`; `docResult`
is what `docx.Document(file_path)` would produce if invoked; `writeOk`
tells whether `f.write(text)` would succeed; `outputPrev` is the content
of the output path before the run (`none` when it does not exist). -/
structure Env where
  inputExists : Bool
  docResult : Except PyError Document
  writeOk : Bool
  outputPrev : Option PyStr

/-- Observable outcome of one run: console lines printed, final content of
the output path, the error that escaped uncaught (if any), and whether the
decoder was invoked / the output handle was opened and then released. -/
structure RunResult where
  console : List PyStr
  outputContent : Option PyStr
  uncaught : Option PyError
  decoderInvoked : Bool
  outputOpened : Bool
  outputReleased : Bool
deriving DecidableEq

/-- Embedding of the script's module-level code: the existence check, the
call to `read_docx`, the `with open(..., 'w') as f: f.write(text)` block
and the two `print` statements.  Opening with mode `'w'` truncates the
file, so on a failed write the output content is the empty string; the
`with` statement releases the handle on both the normal and the raising
exit of the block. -/
def run (env : Env) : RunResult :=
  if env.inputExists then
    match read_docx env.docResult with
    | .error e =>
        { console := []
          outputContent := env.outputPrev
          uncaught := some e
          decoderInvoked := true
          outputOpened := false
          outputReleased := false }
    | .ok text =>
        if env.writeOk then
          { console := [successMsg]
            outputContent := some text
            uncaught := none
            decoderInvoked := true
            outputOpened := true
            outputReleased := true }
        else
          { console := []
            outputContent := some []
            uncaught := some .writeError
            decoderInvoked := true
            outputOpened := true
            outputReleased := true }
  else
    { console := [notFoundMsg]
      outputContent := env.outputPrev
      uncaught := none
      decoderInvoked := false
      outputOpened := false
      outputReleased := false }

/-! ### Helper lemmas about `pyJoin` and `List.splitOn` -/

/-- Unfolding of `pyJoin` on a list with at least two elements. -/
theorem pyJoin_cons_cons (sep x y : PyStr) (zs : List PyStr) :
    pyJoin sep (x :: y :: zs) = x ++ sep ++ pyJoin sep (y :: zs) := rfl

/-- `pyJoin` is `List.intercalate`. -/
theorem pyJoin_eq_intercalate (sep : PyStr) :
    ∀ xs : List PyStr, pyJoin sep xs = List.intercalate sep xs := by
  intro xs
  induction xs with
  | nil => simp [pyJoin, List.intercalate]
  | cons x ys ih =>
    cases ys with
    | nil => simp [pyJoin, List.intercalate]
    | cons y zs =>
      simp only [pyJoin, ih, List.intercalate, List.intersperse_cons_cons,
        List.flatten_cons, List.append_assoc]

/-- Splitting on `a` yields one more piece than there are occurrences of
`a`. -/
theorem length_splitOn {α : Type} [DecidableEq α] (a : α) :
    ∀ l : List α, (l.splitOn a).length = l.count a + 1 := by
  intro l
  induction l with
  | nil => rfl
  | cons x xs ih =>
    simp only [List.splitOn] at ih ⊢
    rw [List.splitOnP_cons]
    by_cases h : x = a
    · subst h
      simp [ih, List.count_cons]
    · have hb : (x == a) = false := by simp [h]
      simp [hb, List.length_modifyHead, ih, List.count_cons]

/-- Occurrences of the separator in a nonempty join: one per internal
boundary plus the occurrences inside the pieces. -/
theorem count_pyJoin (x : PyStr) (xs : List PyStr) :
    (pyJoin ['\n'] (x :: xs)).count '\n' + 1 =
      (x :: xs).length + ((x :: xs).map (fun s => s.count '\n')).sum := by
  induction xs generalizing x with
  | nil => simp [pyJoin, Nat.add_comm]
  | cons y zs ih =>
    have h := ih y
    rw [pyJoin_cons_cons]
    have hsep : List.count '\n' ['\n'] = 1 := by decide
    simp only [List.count_append, List.length_cons, List.map_cons,
      List.sum_cons, hsep] at h ⊢
    omega

/-- Round trip: splitting a nonempty newline-free join on the newline
recovers the pieces. -/
theorem splitOn_pyJoin (xs : List PyStr) (hne : xs ≠ [])
    (hnl : ∀ s ∈ xs, '\n' ∉ s) :
    (pyJoin ['\n'] xs).splitOn '\n' = xs := by
  rw [pyJoin_eq_intercalate]
  exact List.splitOn_intercalate xs '\n' hnl hne

/-! ### Branch characterizations of `run` -/

/-- The run when the input file is absent. -/
theorem run_of_not_found (env : Env) (h : env.inputExists = false) :
    run env =
      { console := [notFoundMsg]
        outputContent := env.outputPrev
        uncaught := none
        decoderInvoked := false
        outputOpened := false
        outputReleased := false } := by
  simp [run, h]

/-- The run when the input exists but the decoder raises `e`. -/
theorem run_of_decode_err (env : Env) (e : PyError)
    (h : env.inputExists = true) (hd : env.docResult = .error e) :
    run env =
      { console := []
        outputContent := env.outputPrev
        uncaught := some e
        decoderInvoked := true
        outputOpened := false
        outputReleased := false } := by
  simp [run, read_docx, h, hd]

/-- The run when the input exists, decoding succeeds and the write
succeeds. -/
theorem run_of_success (env : Env) (doc : Document)
    (h : env.inputExists = true) (hd : env.docResult = .ok doc)
    (hw : env.writeOk = true) :
    run env =
      { console := [successMsg]
        outputContent := some (extractText doc)
        uncaught := none
        decoderInvoked := true
        outputOpened := true
        outputReleased := true } := by
  simp [run, read_docx, h, hd, hw]

/-- The run when the input exists, decoding succeeds and the write
fails. -/
theorem run_of_write_fail (env : Env) (doc : Document)
    (h : env.inputExists = true) (hd : env.docResult = .ok doc)
    (hw : env.writeOk = false) :
    run env =
      { console := []
        outputContent := some []
        uncaught := some .writeError
        decoderInvoked := true
        outputOpened := true
        outputReleased := true } := by
  simp [run, read_docx, h, hd, hw]

/-! ### The claims -/

/-- C1 (counterexample): paragraph fidelity fails as stated for N ≥ 0.
A document with zero paragraphs yields the empty string, which splits on
a newline into one element, not zero; and a document whose single
paragraph text contains a newline splits into two elements, not one. -/
theorem C1_paragraph_fidelity_cex :
    ¬ ((List.splitOn '\n' (extractText ⟨[]⟩)).length = 0) ∧
    ¬ ((List.splitOn '\n' (extractText ⟨[⟨"a\nb".data⟩]⟩)).length = 1) := by
  constructor
  · decide
  · decide

/-- C1 (amended): for every input document with N ≥ 1 paragraphs none of
whose texts contain a newline character, the output content split on the
newline has exactly N elements and the i-th element equals the text of the
i-th paragraph, in original order. -/
theorem C1_paragraph_fidelity (doc : Document)
    (hne : doc.paragraphs ≠ [])
    (hnl : ∀ p ∈ doc.paragraphs, '\n' ∉ p.text) :
    List.splitOn '\n' (extractText doc) = doc.paragraphs.map Paragraph.text ∧
    (List.splitOn '\n' (extractText doc)).length = doc.paragraphs.length := by
  have hmne : doc.paragraphs.map Paragraph.text ≠ [] := by
    simpa using hne
  have hmnl : ∀ s ∈ doc.paragraphs.map Paragraph.text, '\n' ∉ s := by
    intro s hs
    rcases List.mem_map.mp hs with ⟨p, hp, rfl⟩
    exact hnl p hp
  have h : List.splitOn '\n' (extractText doc) =
      doc.paragraphs.map Paragraph.text :=
    splitOn_pyJoin (doc.paragraphs.map Paragraph.text) hmne hmnl
  exact ⟨h, by rw [h, List.length_map]⟩

/-- Witness for C1 (amended) on the three-paragraph document of
Scenario A. -/
theorem C1_paragraph_fidelity_witness :
    List.splitOn '\n'
        (extractText ⟨[⟨"Title".data⟩, ⟨[]⟩, ⟨"Body text.".data⟩]⟩) =
      (⟨[⟨"Title".data⟩, ⟨[]⟩, ⟨"Body text.".data⟩]⟩ :
        Document).paragraphs.map Paragraph.text ∧
    (List.splitOn '\n'
        (extractText ⟨[⟨"Title".data⟩, ⟨[]⟩, ⟨"Body text.".data⟩]⟩)).length =
      (⟨[⟨"Title".data⟩, ⟨[]⟩, ⟨"Body text.".data⟩]⟩ :
        Document).paragraphs.length :=
  C1_paragraph_fidelity ⟨[⟨"Title".data⟩, ⟨[]⟩, ⟨"Body text.".data⟩]⟩
    (by decide) (by decide)

/-- C2: the extracted text is the paragraph texts joined with a single
newline separator (`List.intercalate ['\n']`, which appends no trailing
newline and keeps empty paragraphs in place); Scenario A yields
`"Title\n\nBody text."` and a document with zero paragraphs yields the
empty string. -/
theorem C2_join_semantics :
    (∀ doc : Document,
        extractText doc =
          List.intercalate ['\n'] (doc.paragraphs.map Paragraph.text)) ∧
    extractText ⟨[⟨"Title".data⟩, ⟨[]⟩, ⟨"Body text.".data⟩]⟩ =
      "Title\n\nBody text.".data ∧
    extractText ⟨[]⟩ = [] :=
  ⟨fun doc => pyJoin_eq_intercalate ['\n'] (doc.paragraphs.map Paragraph.text),
    by decide, by decide⟩

/-- C3: when the fixed input path does not exist, the run prints exactly
one message, which contains the literal input file name, the output file
is neither created nor modified, the decoder is not invoked and no error
escapes. -/
theorem C3_missing_file_safety (env : Env) (h : env.inputExists = false) :
    (run env).console = [notFoundMsg] ∧
    (∃ pre post, notFoundMsg = pre ++ file_path ++ post) ∧
    (run env).outputContent = env.outputPrev ∧
    (run env).decoderInvoked = false ∧
    (run env).uncaught = none := by
  rw [run_of_not_found env h]
  exact ⟨rfl, ⟨"File ".data, " not found".data, rfl⟩, rfl, rfl, rfl⟩

/-- Witness for C3 on a concrete environment with an absent input file. -/
theorem C3_missing_file_safety_witness :
    (run ⟨false, .ok ⟨[]⟩, true, none⟩).console = [notFoundMsg] ∧
    (∃ pre post, notFoundMsg = pre ++ file_path ++ post) ∧
    (run ⟨false, .ok ⟨[]⟩, true, none⟩).outputContent =
      (⟨false, .ok ⟨[]⟩, true, none⟩ : Env).outputPrev ∧
    (run ⟨false, .ok ⟨[]⟩, true, none⟩).decoderInvoked = false ∧
    (run ⟨false, .ok ⟨[]⟩, true, none⟩).uncaught = none :=
  C3_missing_file_safety ⟨false, .ok ⟨[]⟩, true, none⟩ rfl

/-- C4: when the input exists and either the decoder raises or the write
fails, the error escapes uncaught, the success message is not printed and
a decoder error passes through `read_docx` unchanged. -/
theorem C4_uncaught_propagation (env : Env) (h : env.inputExists = true)
    (hfail : (∃ e, env.docResult = .error e) ∨ env.writeOk = false) :
    (run env).uncaught ≠ none ∧
    successMsg ∉ (run env).console ∧
    (∀ e : PyError, env.docResult = .error e →
      read_docx env.docResult = .error e ∧ (run env).uncaught = some e) := by
  cases hd : env.docResult with
  | error e =>
    rw [run_of_decode_err env e h hd]
    refine ⟨by simp, by simp, ?_⟩
    intro e' hd'
    injection hd' with he
    subst he
    exact ⟨rfl, rfl⟩
  | ok doc =>
    have hw : env.writeOk = false := by
      rcases hfail with ⟨e, hde⟩ | hw
      · rw [hd] at hde
        simp at hde
      · exact hw
    rw [run_of_write_fail env doc h hd hw]
    refine ⟨by simp, by simp, ?_⟩
    intro e' hd'
    simp at hd'

/-- Witness for C4 on a concrete environment whose decoder raises. -/
theorem C4_uncaught_propagation_witness :
    (run ⟨true, .error .decodeError, true, none⟩).uncaught ≠ none ∧
    successMsg ∉ (run ⟨true, .error .decodeError, true, none⟩).console ∧
    (∀ e : PyError,
      (⟨true, .error .decodeError, true, none⟩ : Env).docResult = .error e →
      read_docx (⟨true, .error .decodeError, true, none⟩ : Env).docResult =
        .error e ∧
      (run ⟨true, .error .decodeError, true, none⟩).uncaught = some e) :=
  C4_uncaught_propagation ⟨true, .error .decodeError, true, none⟩ rfl
    (Or.inl ⟨.decodeError, rfl⟩)

/-- C5: on every successful run the final output content equals exactly
the joined extracted text, whatever content was at the output path before
the run. -/
theorem C5_overwrite_semantics (env : Env) (doc : Document)
    (h : env.inputExists = true) (hd : env.docResult = .ok doc)
    (hw : env.writeOk = true) :
    (run env).outputContent = some (extractText doc) ∧
    ∀ prev : Option PyStr,
      (run { env with outputPrev := prev }).outputContent =
        some (extractText doc) := by
  constructor
  · rw [run_of_success env doc h hd hw]
  · intro prev
    rw [run_of_success { env with outputPrev := prev } doc h hd hw]

/-- Witness for C5: a successful run over a prior output content `"old"`
ends with exactly the extracted text. -/
theorem C5_overwrite_semantics_witness :
    (run ⟨true, .ok ⟨[⟨"a".data⟩]⟩, true, some "old".data⟩).outputContent =
      some (extractText ⟨[⟨"a".data⟩]⟩) ∧
    ∀ prev : Option PyStr,
      (run { (⟨true, .ok ⟨[⟨"a".data⟩]⟩, true, some "old".data⟩ : Env) with
          outputPrev := prev }).outputContent =
        some (extractText ⟨[⟨"a".data⟩]⟩) :=
  C5_overwrite_semantics ⟨true, .ok ⟨[⟨"a".data⟩]⟩, true, some "old".data⟩
    ⟨[⟨"a".data⟩]⟩ rfl rfl rfl

/-- C6: extraction is a deterministic function of the document's paragraph
sequence; two successful runs over documents with equal paragraph
sequences produce identical output file contents, whatever the prior
output contents were. -/
theorem C6_deterministic_extraction (e1 e2 : Env) (d1 d2 : Document)
    (h1 : e1.inputExists = true) (h2 : e2.inputExists = true)
    (hd1 : e1.docResult = .ok d1) (hd2 : e2.docResult = .ok d2)
    (hw1 : e1.writeOk = true) (hw2 : e2.writeOk = true)
    (hp : d1.paragraphs = d2.paragraphs) :
    (run e1).outputContent = (run e2).outputContent := by
  rw [run_of_success e1 d1 h1 hd1 hw1, run_of_success e2 d2 h2 hd2 hw2]
  simp only [extractText, hp]

/-- Witness for C6: two runs over the same one-paragraph document, with
different prior output contents, end with the same output content. -/
theorem C6_deterministic_extraction_witness :
    (run ⟨true, .ok ⟨[⟨"a".data⟩]⟩, true, none⟩).outputContent =
      (run ⟨true, .ok ⟨[⟨"a".data⟩]⟩, true, some "old".data⟩).outputContent :=
  C6_deterministic_extraction
    ⟨true, .ok ⟨[⟨"a".data⟩]⟩, true, none⟩
    ⟨true, .ok ⟨[⟨"a".data⟩]⟩, true, some "old".data⟩
    ⟨[⟨"a".data⟩]⟩ ⟨[⟨"a".data⟩]⟩ rfl rfl rfl rfl rfl rfl rfl

/-- C7: a run with no uncaught error prints exactly one console line,
either the success message (input present) or the not-found message
(input absent), and the two messages differ. -/
theorem C7_console_outcomes (env : Env) (h : (run env).uncaught = none) :
    (((run env).console = [successMsg] ∧ env.inputExists = true) ∨
      ((run env).console = [notFoundMsg] ∧ env.inputExists = false)) ∧
    successMsg ≠ notFoundMsg := by
  refine ⟨?_, by decide⟩
  cases hin : env.inputExists with
  | false =>
    exact Or.inr ⟨by rw [run_of_not_found env hin], rfl⟩
  | true =>
    cases hd : env.docResult with
    | error e =>
      rw [run_of_decode_err env e hin hd] at h
      simp at h
    | ok doc =>
      cases hw : env.writeOk with
      | false =>
        rw [run_of_write_fail env doc hin hd hw] at h
        simp at h
      | true =>
        exact Or.inl ⟨by rw [run_of_success env doc hin hd hw], rfl⟩

/-- Witness for C7 on a concrete successful run. -/
theorem C7_console_outcomes_witness :
    (((run ⟨true, .ok ⟨[]⟩, true, none⟩).console = [successMsg] ∧
        (⟨true, .ok ⟨[]⟩, true, none⟩ : Env).inputExists = true) ∨
      ((run ⟨true, .ok ⟨[]⟩, true, none⟩).console = [notFoundMsg] ∧
        (⟨true, .ok ⟨[]⟩, true, none⟩ : Env).inputExists = false)) ∧
    successMsg ≠ notFoundMsg :=
  C7_console_outcomes ⟨true, .ok ⟨[]⟩, true, none⟩ rfl

/-- C8: whenever the run opens the output file handle, the handle is
released, whether or not the write succeeds. -/
theorem C8_handle_release (env : Env)
    (h : (run env).outputOpened = true) :
    (run env).outputReleased = true := by
  cases hin : env.inputExists with
  | false =>
    rw [run_of_not_found env hin] at h
    simp at h
  | true =>
    cases hd : env.docResult with
    | error e =>
      rw [run_of_decode_err env e hin hd] at h
      simp at h
    | ok doc =>
      cases hw : env.writeOk with
      | false => rw [run_of_write_fail env doc hin hd hw]
      | true => rw [run_of_success env doc hin hd hw]

/-- Witness for C8 on a concrete run whose write fails: the handle was
opened and is still released. -/
theorem C8_handle_release_witness :
    (run ⟨true, .ok ⟨[]⟩, false, none⟩).outputReleased = true :=
  C8_handle_release ⟨true, .ok ⟨[]⟩, false, none⟩ rfl

/-- C9: when the input exists but the decoder raises, the output file is
neither created nor modified: the output path is never opened and its
content after the run is whatever it was before. -/
theorem C9_atomic_on_decode_failure (env : Env) (e : PyError)
    (h : env.inputExists = true) (hd : env.docResult = .error e) :
    (run env).outputContent = env.outputPrev ∧
    (run env).outputOpened = false := by
  rw [run_of_decode_err env e h hd]
  exact ⟨rfl, rfl⟩

/-- Witness for C9 on a concrete environment whose decoder raises over a
pre-existing output file. -/
theorem C9_atomic_on_decode_failure_witness :
    (run ⟨true, .error .decodeError, true, some "old".data⟩).outputContent =
      (⟨true, .error .decodeError, true, some "old".data⟩ : Env).outputPrev ∧
    (run ⟨true, .error .decodeError, true, some "old".data⟩).outputOpened =
      false :=
  C9_atomic_on_decode_failure ⟨true, .error .decodeError, true, some "old".data⟩
    .decodeError rfl rfl

/-- C10: for every nonempty list of newline-free paragraph strings,
splitting the extractor's join on the newline recovers the list; and the
split length equals the list length exactly when the list is nonempty and
newline-free. -/
theorem C10_round_trip_boundary :
    (∀ xs : List PyStr, xs ≠ [] → (∀ s ∈ xs, '\n' ∉ s) →
        List.splitOn '\n' (pyJoin ['\n'] xs) = xs) ∧
    (∀ xs : List PyStr,
        (List.splitOn '\n' (pyJoin ['\n'] xs)).length = xs.length ↔
          (xs ≠ [] ∧ ∀ s ∈ xs, '\n' ∉ s)) := by
  refine ⟨fun xs hne hnl => splitOn_pyJoin xs hne hnl, ?_⟩
  intro xs
  cases xs with
  | nil =>
    constructor
    · intro hlen
      simp [pyJoin] at hlen
    · rintro ⟨hne, -⟩
      exact absurd rfl hne
  | cons x rest =>
    have h1 := length_splitOn '\n' (pyJoin ['\n'] (x :: rest))
    have h2 := count_pyJoin x rest
    constructor
    · intro hlen
      refine ⟨by simp, ?_⟩
      have hsum : ((x :: rest).map (fun s => s.count '\n')).sum = 0 := by
        rw [h1] at hlen
        omega
      intro s hs
      have hz : s.count '\n' = 0 :=
        (List.sum_eq_zero_iff.mp hsum) (s.count '\n')
          (List.mem_map_of_mem (fun t => t.count '\n') hs)
      exact List.count_eq_zero.mp hz
    · rintro ⟨-, hnl⟩
      have hsum : ((x :: rest).map (fun s => s.count '\n')).sum = 0 := by
        apply List.sum_eq_zero_iff.mpr
        intro n hn
        rcases List.mem_map.mp hn with ⟨s, hs, rfl⟩
        exact List.count_eq_zero.mpr (hnl s hs)
      rw [h1]
      omega

/-- Witness for C10's round trip on a concrete newline-free list. -/
theorem C10_round_trip_boundary_witness :
    List.splitOn '\n' (pyJoin ['\n'] ["a".data, [], "b".data]) =
      ["a".data, [], "b".data] :=
  C10_round_trip_boundary.1 ["a".data, [], "b".data] (by decide) (by decide)
